import Mathlib

/-!
Verification of the `pydantic-scrapeable-api-model` demo repository.

The repository ships one source file, `demo.py`, which declares the model
hierarchy `ScrapeableApiModel → JSONPlaceholderAPIScraper → {Post, Todo}`
and two custom scrape getters (`Post.fetch_comments_count`,
`Todo.compute_title_length`).  The scraping/caching framework itself
(`pydantic_scrapeable_api_model` / `pydantic_cacheable_model`) is not part of
the source tree, so its components — Cache Store, Request Gateway, Field
Resolver, Record Pipeline, discovery — are modelled from the specification
(`spec.md`), as indicated in the doc comment of each such definition.
Definitions taken from `demo.py` carry the source's names.
-/

namespace Scrape

/-- Per-field status of a scrapeable field (spec §3, Record:
status ∈ \x7bUnfetched, Pending, Resolved, KnownEmpty, Failed\x7d). -/
inductive FieldStatus where
  | Unfetched
  | Pending
  | Resolved
  | KnownEmpty
  | Failed
deriving DecidableEq, Repr

/-- A status is terminal iff it is Resolved, KnownEmpty or Failed (spec §3). -/
def FieldStatus.isTerminal : FieldStatus → Bool
  | .Resolved => true
  | .KnownEmpty => true
  | .Failed => true
  | _ => false

/-! ## Cache Store (modelled from the spec, §4.2)

Modelled from the spec: the Cache Store of `pydantic_cacheable_model` is not
under `src/`.  It is "keyed persistent storage mapping (model name, cache key)
→ validated record", embedded as an association list of
`(model name, cache key, record)` entries.  `write` "persists a fully-resolved
record, replacing any prior entry for the same key"; `load_all` "returns every
persisted record for a model, each fully validated …; a record that fails
validation … is skipped". -/

/-- The Cache Store's state: a list of (model name, cache key, record). -/
def CacheStore (R : Type) : Type := List (String × String × R)

/-- Modelled from the spec: `write(model, record)` persists a record under its
key, replacing any prior entry for the same (model, key). -/
def CacheStore.write (cs : CacheStore R) (m k : String) (r : R) : CacheStore R :=
  (m, k, r) :: cs.filter (fun e => !(e.1 == m && e.2.1 == k))

/-- Modelled from the spec: `exists(model, key) -> bool`, true iff a persisted
entry for that key is present. -/
def CacheStore.existsEntry (cs : CacheStore R) (m k : String) : Bool :=
  cs.any (fun e => e.1 == m && e.2.1 == k)

/-- Modelled from the spec: `load_all(model)` returns every persisted record
for a model that validates against the current field descriptors (`valid`);
an entry failing validation is skipped, not fatal. -/
def CacheStore.loadAll (cs : CacheStore R) (valid : R → Bool) (m : String) : List R :=
  (cs.filter (fun e => e.1 == m && valid e.2.2)).map (fun e => e.2.2)

end Scrape

namespace Scrape

/-! ## Request Gateway (modelled from the spec, §4.3) -/

/-- Outcome of one underlying HTTP exchange, as classified by the transport:
a successful body, a 4xx "not found"-class response, or any other failure
(timeout, 5xx, malformed body). -/
inductive HttpOutcome (β : Type) where
  | ok (body : β)
  | notFound
  | transient
deriving DecidableEq, Repr

/-- Result of a Gateway call as seen by callers (spec §4.3:
`request(id, url, headers) -> Response | KnownAbsent`; a transient failure is
surfaced as an error, never masked as KnownAbsent). -/
inductive GatewayResult (β : Type) where
  | success (body : β)
  | knownAbsent
  | transientError
deriving DecidableEq, Repr

/-- Modelled from the spec: the Gateway maps a 4xx not-found-class response to
KnownAbsent and surfaces any other failure as a transient error. -/
def classify : HttpOutcome β → GatewayResult β
  | .ok b => .success b
  | .notFound => .knownAbsent
  | .transient => .transientError

/-- Run-scoped Request Gateway state: the request-coalescing map keyed by the
opaque de-duplication `id` token, and the ordered log of ids for which an
underlying request was actually issued.  Reset at the start of each run
(spec §5). -/
structure GwState (β : Type) where
  memo : List (String × GatewayResult β)
  issued : List String
deriving DecidableEq, Repr

/-- The reset Gateway state at the start of a run. -/
def GwState.init : GwState β := ⟨[], []⟩

/-- Modelled from the spec: `request(id, url, headers)`.  If `offline` is true
it never issues network I/O and always returns KnownAbsent.  Otherwise two
calls with the same `id` within one run are coalesced into a single underlying
request (the coalescing map); a fresh id issues exactly one request against
the external network behaviour `net` and records it. -/
def request (offline : Bool) (net : String → HttpOutcome β) (st : GwState β)
    (rid url : String) : GatewayResult β × GwState β :=
  if offline then (.knownAbsent, st)
  else
    match st.memo.lookup rid with
    | some r => (r, st)
    | none =>
      let r := classify (net url)
      (r, ⟨(rid, r) :: st.memo, st.issued ++ [rid]⟩)

/-- Fold a list of `(id, url)` Gateway calls through the state. -/
def runCalls (offline : Bool) (net : String → HttpOutcome β) (st : GwState β)
    (calls : List (String × String)) : GwState β :=
  calls.foldl (fun s c => (request offline net s c.1 c.2).2) st

end Scrape

namespace Scrape

/-! ## Field Resolver (modelled from the spec, §4.4 and §9)

Modelled from the spec: "a field's resolution strategy is chosen by a tag,
dispatching to one of a closed set of strategies \x7bHTTP-detail-fetch,
pure-computation\x7d.  Implement as a tagged variant per field descriptor." -/

/-- What a getter produces: a successful value, a known-empty terminal value
carrying the field's declared default-on-absence, or an error. -/
inductive GetterOutcome (α : Type) where
  | value (v : α)
  | empty (dflt : α)
  | error
deriving DecidableEq, Repr

/-- Tagged resolution strategy of one scrapeable field (spec §9): either a
pure computation over the in-memory record, or an HTTP detail fetch with a
request id, a URL, the declared default-on-absence value, and an
interpretation of a successful response body. -/
inductive GetterDesc (β α : Type) where
  | computed (f : Unit → GetterOutcome α)
  | detail (rid url : String) (dflt : α) (onSuccess : β → GetterOutcome α)

/-- Modelled from the spec: a Detail getter calls the Request Gateway and
interprets its result; a KnownAbsent response translates into the declared
default-on-absence value as a known-empty outcome; a transient error becomes
a getter error (later a Failed status). -/
def runDetailGetter (offline : Bool) (net : String → HttpOutcome β) (st : GwState β)
    (rid url : String) (dflt : α) (onSuccess : β → GetterOutcome α) :
    GetterOutcome α × GwState β :=
  let (r, st') := request offline net st rid url
  match r with
  | .knownAbsent => (.empty dflt, st')
  | .success b => (onSuccess b, st')
  | .transientError => (.error, st')

/-- Modelled from the spec: dispatch on the field's tagged strategy.  Computed
getters run synchronously against the in-memory record and never touch the
Gateway; Detail getters go through `runDetailGetter`. -/
def runGetter (offline : Bool) (net : String → HttpOutcome β) (st : GwState β) :
    GetterDesc β α → GetterOutcome α × GwState β
  | .computed f => (f (), st)
  | .detail rid url dflt onSuccess => runDetailGetter offline net st rid url dflt onSuccess

/-- Modelled from the spec: the status and value a getter outcome resolves to.
Success sets Resolved; a known-empty outcome sets KnownEmpty with the default
value; an error sets Failed (reported, not thrown). -/
def resolveStatus : GetterOutcome α → FieldStatus × Option α
  | .value v => (.Resolved, some v)
  | .empty d => (.KnownEmpty, some d)
  | .error => (.Failed, none)

/-! ## Records and the Record Pipeline (modelled from the spec, §3, §4.5) -/

/-- One record of a model: its cache key, its plain data (populated from the
list endpoint), and per scrapeable field a (name, status, value) triple. -/
structure SRecord (ρ α : Type) where
  key : String
  data : ρ
  fields : List (String × FieldStatus × Option α)
deriving DecidableEq, Repr

/-- All of a record's scrapeable fields are in a terminal status. -/
def SRecord.allTerminal (r : SRecord ρ α) : Bool :=
  r.fields.all (fun f => f.2.1.isTerminal)

/-- Static description of one model (spec §3, Model Descriptor): its name,
its list endpoint, how a list response body parses into (cache key, plain
data) rows, and the scrapeable field descriptors built for one record's
plain data. -/
structure ModelDesc (β ρ α : Type) where
  name : String
  listEndpoint : String
  parseList : β → List (String × ρ)
  fieldsOf : ρ → List (String × GetterDesc β α)

/-- A fresh record built from one list-endpoint row: plain fields populated,
every scrapeable field Unfetched (spec §4.5, ListFetch). -/
def ModelDesc.freshRecord (M : ModelDesc β ρ α) (row : String × ρ) : SRecord ρ α :=
  ⟨row.1, row.2, (M.fieldsOf row.2).map (fun f => (f.1, .Unfetched, none))⟩

/-- Modelled from the spec: resolve one field of a record.  A field already in
a terminal status is never re-attempted within the run (memoized resolution);
a non-terminal field's getter is looked up by name among the model's field
descriptors and dispatched. -/
def scrapeField (offline : Bool) (net : String → HttpOutcome β) (M : ModelDesc β ρ α)
    (d : ρ) (gw : GwState β) (f : String × FieldStatus × Option α) :
    (String × FieldStatus × Option α) × GwState β :=
  if f.2.1.isTerminal then (f, gw)
  else
    match (M.fieldsOf d).lookup f.1 with
    | some g =>
      let (o, gw') := runGetter offline net gw g
      ((f.1, resolveStatus o), gw')
    | none => ((f.1, .Failed, none), gw)

/-- One step of the per-record field fold. -/
def scrapeStep (offline : Bool) (net : String → HttpOutcome β) (M : ModelDesc β ρ α)
    (d : ρ) (acc : List (String × FieldStatus × Option α) × GwState β)
    (f : String × FieldStatus × Option α) :
    List (String × FieldStatus × Option α) × GwState β :=
  let (f', gw') := scrapeField offline net M d acc.2 f
  (acc.1 ++ [f'], gw')

/-- Modelled from the spec: resolve every scrapeable field of one record,
sequentially per record (spec §4.5, ScrapeFields). -/
def scrapeRecord (offline : Bool) (net : String → HttpOutcome β) (M : ModelDesc β ρ α)
    (gw : GwState β) (r : SRecord ρ α) : SRecord ρ α × GwState β :=
  let step := r.fields.foldl (scrapeStep offline net M r.data) ([], gw)
  (⟨r.key, r.data, step.1⟩, step.2)

/-- One step of the across-records fold. -/
def scrapeRecordsStep (offline : Bool) (net : String → HttpOutcome β) (M : ModelDesc β ρ α)
    (acc : List (SRecord ρ α) × GwState β) (r : SRecord ρ α) :
    List (SRecord ρ α) × GwState β :=
  let (r', gw') := scrapeRecord offline net M acc.2 r
  (acc.1 ++ [r'], gw')

/-- Resolve every record of the model in turn (sequential across records in
this embedding; the spec guarantees no cross-record ordering anyway). -/
def scrapeRecords (offline : Bool) (net : String → HttpOutcome β) (M : ModelDesc β ρ α)
    (gw : GwState β) (rs : List (SRecord ρ α)) : List (SRecord ρ α) × GwState β :=
  rs.foldl (scrapeRecordsStep offline net M) ([], gw)

end Scrape

namespace Scrape

/-- Run Options (spec §3): `check_api` (false = offline) and `use_cache`
(false = ignore existing cache entries). -/
structure RunOptions where
  use_cache : Bool
  check_api : Bool
deriving DecidableEq, Repr

/-- Result of running one model's Record Pipeline: the per-model outcome (an
error message for a failed model, else its records), the ordered write
operations applied to the Cache Store during the run, the resulting Cache
Store, and the resulting Gateway state. -/
structure RunResult (β ρ α : Type) where
  records : Except String (List (SRecord ρ α))
  writes : List (String × String × SRecord ρ α)
  cache : CacheStore (SRecord ρ α)
  gw : GwState β

/-- Modelled from the spec: the Persist step (spec §4.5, step 4) — write every
record (all fields are terminal once ScrapeFields ran) to the Cache Store,
skipped entirely if offline ("a run under `check_api=false` never mutates the
cache"). -/
def persistRecords (offline : Bool) (name : String) (cache : CacheStore (SRecord ρ α))
    (rs : List (SRecord ρ α)) :
    List (String × String × SRecord ρ α) × CacheStore (SRecord ρ α) :=
  if offline then ([], cache)
  else
    rs.foldl
      (fun (acc : List (String × String × SRecord ρ α) × CacheStore (SRecord ρ α)) r =>
        (acc.1 ++ [(name, r.key, r)], acc.2.write name r.key r))
      ([], cache)

/-- Modelled from the spec: one model's Record Pipeline (spec §4.5).
ListCheck: when `use_cache` is true and at least one cached entry exists, the
cache is trusted wholesale for the model (the spec's recommended policy), the
list fetch is skipped and only non-terminal fields of the loaded records are
scraped.  ListFetch: offline with `use_cache` and no cache fails the model
(spec §7: "List-endpoint unreachable while offline with no cache: fatal to
that one model's pipeline only"); offline without `use_cache` is the
documented `check_api=false, use_cache=false` combination and yields an empty
result set with no error (spec §3); online, the list endpoint is fetched
through the Gateway, a KnownAbsent list response yields zero records (not an
error), a transient failure fails the model.  ScrapeFields then Persist as
above. -/
def runModel (opts : RunOptions) (M : ModelDesc β ρ α) (valid : SRecord ρ α → Bool)
    (net : String → HttpOutcome β) (cache : CacheStore (SRecord ρ α)) (gw : GwState β) :
    RunResult β ρ α :=
  let offline := !opts.check_api
  let cached := cache.loadAll valid M.name
  if opts.use_cache && !cached.isEmpty then
    let scraped := scrapeRecords offline net M gw cached
    let persisted := persistRecords offline M.name cache scraped.1
    ⟨.ok scraped.1, persisted.1, persisted.2, scraped.2⟩
  else
    if offline then
      if opts.use_cache then
        ⟨.error "cannot establish the record set without the list endpoint and without cache",
         [], cache, gw⟩
      else
        ⟨.ok [], [], cache, gw⟩
    else
      let listCall := request offline net gw (M.name ++ "-list") M.listEndpoint
      match listCall.1 with
      | .success b =>
        let records := (M.parseList b).map M.freshRecord
        let scraped := scrapeRecords offline net M listCall.2 records
        let persisted := persistRecords offline M.name cache scraped.1
        ⟨.ok scraped.1, persisted.1, persisted.2, scraped.2⟩
      | .knownAbsent => ⟨.ok [], [], cache, listCall.2⟩
      | .transientError => ⟨.error "list endpoint fetch failed", [], cache, listCall.2⟩

end Scrape

namespace Scrape

/-! ## Python's decimal rendering of an integer

`demo.py` renders integers to strings twice: `str(self.id)` in
`Todo.cache_key` and the f-string `f"post-{self.id}-comments"` in
`Post.fetch_comments_count`.  Python's `str` of an `int` is the decimal
representation, with a leading `-` for negative values.  It is embedded here
as an executable function (fuel-based so the kernel can evaluate it) and
related to Mathlib's `Nat.digits` for the injectivity proofs. -/

/-- Little-endian decimal digits of `n`, with fuel (`fuel ≥ n` suffices). -/
def decDigitsAux : Nat → Nat → List Nat
  | _, 0 => []
  | 0, _ + 1 => []
  | fuel + 1, n + 1 => (n + 1) % 10 :: decDigitsAux fuel ((n + 1) / 10)

/-- Little-endian decimal digits of `n` (empty for 0). -/
def decDigits (n : Nat) : List Nat := decDigitsAux n n

/-- Python's `str` on a non-negative integer: `"0"` for 0, else the decimal
digits most-significant first. -/
def pyStrNat (n : Nat) : String :=
  if n = 0 then "0" else ⟨((decDigits n).map Nat.digitChar).reverse⟩

/-- Python's `str` on an arbitrary integer: a leading `-` for negatives. -/
def pyStrInt (i : Int) : String :=
  if i < 0 then "-" ++ pyStrNat i.natAbs else pyStrNat i.natAbs

theorem decDigitsAux_eq_digits (fuel : Nat) :
    ∀ n, n ≤ fuel → decDigitsAux fuel n = Nat.digits 10 n := by
  induction fuel with
  | zero =>
    intro n hn
    interval_cases n
    simp [decDigitsAux]
  | succ fuel ih =>
    intro n hn
    match n with
    | 0 => simp [decDigitsAux]
    | m + 1 =>
      rw [decDigitsAux, Nat.digits_def' (by norm_num : 1 < 10) (Nat.succ_pos m)]
      have hdiv : (m + 1) / 10 ≤ fuel := by
        have := Nat.div_lt_self (Nat.succ_pos m) (by norm_num : 1 < 10)
        omega
      rw [ih _ hdiv]

theorem decDigits_eq_digits (n : Nat) : decDigits n = Nat.digits 10 n :=
  decDigitsAux_eq_digits n n le_rfl

theorem digitChar_inj_lt :
    ∀ a, a < 10 → ∀ b, b < 10 → Nat.digitChar a = Nat.digitChar b → a = b := by
  decide

theorem map_digitChar_inj :
    ∀ xs ys : List Nat, (∀ x ∈ xs, x < 10) → (∀ y ∈ ys, y < 10) →
      xs.map Nat.digitChar = ys.map Nat.digitChar → xs = ys := by
  intro xs
  induction xs with
  | nil =>
    intro ys _ _ h
    cases ys with
    | nil => rfl
    | cons y ys => simp at h
  | cons x xs ih =>
    intro ys hx hy h
    cases ys with
    | nil => simp at h
    | cons y ys =>
      simp only [List.map_cons, List.cons.injEq] at h
      have hx0 : x < 10 := hx x (by simp)
      have hy0 : y < 10 := hy y (by simp)
      have hxy : x = y := digitChar_inj_lt x hx0 y hy0 h.1
      have htl : xs = ys :=
        ih ys (fun a ha => hx a (by simp [ha])) (fun a ha => hy a (by simp [ha])) h.2
      rw [hxy, htl]


theorem data_mk (l : List Char) : (String.mk l).data = l := rfl

theorem decDigits_lt (k : Nat) : ∀ x ∈ decDigits k, x < 10 := by
  intro x hx
  exact Nat.digits_lt_base (by norm_num) (by rwa [decDigits_eq_digits] at hx)

theorem pyStrNat_zero : pyStrNat 0 = "0" := rfl

theorem pyStrNat_of_ne_zero (n : Nat) (hn : n ≠ 0) :
    pyStrNat n = ⟨((decDigits n).map Nat.digitChar).reverse⟩ := by
  simp [pyStrNat, hn]

theorem pyStrNat_inj : ∀ m n : Nat, pyStrNat m = pyStrNat n → m = n := by
  have zero_case : ∀ n : Nat, n ≠ 0 → pyStrNat 0 ≠ pyStrNat n := by
    intro n hn h
    have hdata := congrArg String.data h
    rw [pyStrNat_zero, pyStrNat_of_ne_zero n hn, data_mk] at hdata
    have hrev : (decDigits n).map Nat.digitChar = ['0'] := by
      have := congrArg List.reverse hdata
      simpa using this.symm
    have hdig : decDigits n = [0] := by
      refine map_digitChar_inj _ [0] (decDigits_lt n) ?_ (by simpa using hrev)
      intro y hy
      simp at hy
      omega
    have hn0 : n = 0 := by
      have hod := Nat.ofDigits_digits 10 n
      rw [← decDigits_eq_digits, hdig] at hod
      simpa [Nat.ofDigits] using hod.symm
    exact hn hn0
  intro m n h
  by_cases hm : m = 0
  · by_cases hn : n = 0
    · rw [hm, hn]
    · exact absurd (hm ▸ h) (zero_case n hn)
  · by_cases hn : n = 0
    · exact absurd (hn ▸ h).symm (zero_case m hm)
    · have hdata := congrArg String.data h
      rw [pyStrNat_of_ne_zero m hm, pyStrNat_of_ne_zero n hn, data_mk, data_mk] at hdata
      have h' := List.reverse_injective hdata
      have hmap := map_digitChar_inj _ _ (decDigits_lt m) (decDigits_lt n) h'
      rw [decDigits_eq_digits, decDigits_eq_digits] at hmap
      exact Nat.digits_inj_iff.mp hmap

theorem digitChar_ne_dash : ∀ d, d < 10 → Nat.digitChar d ≠ '-' := by
  decide

theorem pyStrNat_no_dash (n : Nat) : ∀ c ∈ (pyStrNat n).data, c ≠ '-' := by
  intro c hc
  by_cases hn : n = 0
  · subst hn
    rw [pyStrNat_zero] at hc
    have h0 : ("0" : String).data = ['0'] := rfl
    rw [h0] at hc
    simp at hc
    subst hc
    decide
  · rw [pyStrNat_of_ne_zero n hn, data_mk] at hc
    have hc' : c ∈ (decDigits n).map Nat.digitChar := by simpa using hc
    obtain ⟨d, hd, rfl⟩ := List.mem_map.mp hc'
    exact digitChar_ne_dash d (decDigits_lt n d hd)

theorem pyStrInt_inj : ∀ i j : Int, pyStrInt i = pyStrInt j → i = j := by
  have dash_data : ∀ s : String, ("-" ++ s).data = '-' :: s.data := by
    intro s
    rfl
  intro i j h
  by_cases hi : i < 0
  · by_cases hj : j < 0
    · simp only [pyStrInt, if_pos hi, if_pos hj] at h
      have hdata := congrArg String.data h
      rw [dash_data, dash_data] at hdata
      have htl : (pyStrNat i.natAbs).data = (pyStrNat j.natAbs).data :=
        List.tail_eq_of_cons_eq hdata
      have habs : i.natAbs = j.natAbs := pyStrNat_inj _ _ (String.ext htl)
      omega
    · simp only [pyStrInt, if_pos hi, if_neg hj] at h
      have hdata := congrArg String.data h
      rw [dash_data] at hdata
      have hmem : '-' ∈ (pyStrNat j.natAbs).data := by
        rw [← hdata]
        simp
      exact absurd rfl (pyStrNat_no_dash _ '-' hmem)
  · by_cases hj : j < 0
    · simp only [pyStrInt, if_neg hi, if_pos hj] at h
      have hdata := congrArg String.data h
      rw [dash_data] at hdata
      have hmem : '-' ∈ (pyStrNat i.natAbs).data := by
        rw [hdata]
        simp
      exact absurd rfl (pyStrNat_no_dash _ '-' hmem)
    · simp only [pyStrInt, if_neg hi, if_neg hj] at h
      have habs : i.natAbs = j.natAbs := pyStrNat_inj _ _ h
      omega

end Scrape

namespace Scrape

/-! ## The demo models (`src/demo.py`) -/

/-- `JSONPlaceholderAPIScraper.BASE_URL` (demo.py line 23). -/
def BASE_URL : String := "https://jsonplaceholder.typicode.com"

/-- Modelled from the spec: `self._build_url(path)` of the framework joins the
model's base URL with a path (spec §3: Model Descriptor has a base URL; the
demo's `BASE_URL` is shared configuration). -/
def buildUrl (path : String) : String := BASE_URL ++ path

/-- Plain fields of `Post` (demo.py lines 26–34): `id` (the cache key),
`userId`, `title`, `body`.  `comments_count` is its scrapeable detail field.
Python ints are unbounded, hence `Int`. -/
structure Post where
  id : Int
  userId : Int
  title : String
  body : String
deriving DecidableEq, Repr

/-- `Post.detail_endpoint` (demo.py lines 37–39): `f"/posts/{self.id}"`. -/
def Post.detail_endpoint (p : Post) : String := "/posts/" ++ pyStrInt p.id

/-- Modelled from the spec: `id` is declared `CacheKey[int]`
(`pydantic_cacheable_model` is not under `src/`); the Cache Store addresses a
record by its cache-key field rendered as a string, so Post id 1 is addressed
by the key "1". -/
def Post.cache_key (p : Post) : String := pyStrInt p.id

/-- Plain fields of `Todo` (demo.py lines 56–64): `id`, `userId`, `title`,
`completed`; `title_length` is its scrapeable field. -/
structure Todo where
  id : Int
  userId : Int
  title : String
  completed : Bool
deriving DecidableEq, Repr

/-- `Todo.cache_key` (demo.py lines 67–69): `return str(self.id)`. -/
def Todo.cache_key (t : Todo) : String := pyStrInt t.id

/-- `Todo.compute_title_length` (demo.py lines 71–73): `return len(self.title)`.
It performs no HTTP (source comment: "Demonstrates a non-HTTP field getter"). -/
def Todo.compute_title_length (t : Todo) : GetterOutcome Int :=
  .value (t.title.length : Int)

/-- Response bodies served by the demo's API: a JSON array of comment objects
(only its length is consumed), a list of post rows, or a list of todo rows. -/
inductive DemoBody where
  | comments (cs : List Unit)
  | posts (rows : List Post)
  | todos (rows : List Todo)
deriving DecidableEq, Repr

/-- `Post.fetch_comments_count` (demo.py lines 41–53) as its tagged strategy:
a detail fetch with request id `f"post-{self.id}-comments"` and URL
`self._build_url(f"/posts/{self.id}/comments")`; a `None` response (the
Gateway's KnownAbsent) is marked known-empty with value 0 (source comment:
"Mark as known-empty to avoid repeated attempts this run"); a successful
response yields `len(data)` for the parsed comment list `data`; a body that
is not a list fails the getter. -/
def Post.fetch_comments_count (p : Post) : GetterDesc DemoBody Int :=
  .detail ("post-" ++ pyStrInt p.id ++ "-comments")
    (buildUrl ("/posts/" ++ pyStrInt p.id ++ "/comments"))
    0
    (fun b =>
      match b with
      | .comments cs => .value (cs.length : Int)
      | _ => .error)

/-- The `Post` model's descriptor: list endpoint `/posts` (demo.py line 29),
rows keyed by the cache key, one scrapeable field `comments_count`. -/
def PostModel : ModelDesc DemoBody Post Int where
  name := "Post"
  listEndpoint := "/posts"
  parseList := fun b =>
    match b with
    | .posts rows => rows.map (fun p => (p.cache_key, p))
    | _ => []
  fieldsOf := fun p => [("comments_count", p.fetch_comments_count)]

/-- The `Todo` model's descriptor: list endpoint `/todos` (demo.py line 59),
one scrapeable field `title_length`, a pure computation. -/
def TodoModel : ModelDesc DemoBody Todo Int where
  name := "Todo"
  listEndpoint := "/todos"
  parseList := fun b =>
    match b with
    | .todos rows => rows.map (fun t => (t.cache_key, t))
    | _ => []
  fieldsOf := fun t => [("title_length", .computed (fun _ => t.compute_title_length))]

/-! ## Model discovery (demo.py class hierarchy; algorithm modelled from the
spec, §4.1 and §9) -/

/-- The classes declared by the repository (demo.py): the framework base
`ScrapeableApiModel`, the intermediate `JSONPlaceholderAPIScraper` (only
contributes `BASE_URL`, declares no fields of its own), and the concrete
models `Post` and `Todo`. -/
inductive DemoClass where
  | ScrapeableApiModel
  | JSONPlaceholderAPIScraper
  | Post
  | Todo
deriving DecidableEq, Repr, Fintype

/-- Immediate superclass, from the class declarations in demo.py. -/
def parentOf : DemoClass → Option DemoClass
  | .ScrapeableApiModel => none
  | .JSONPlaceholderAPIScraper => some .ScrapeableApiModel
  | .Post => some .JSONPlaceholderAPIScraper
  | .Todo => some .JSONPlaceholderAPIScraper

/-- The chain of a class and its superclasses (fuel-bounded walk up
`parentOf`; 4 registered classes bound every chain). -/
def ancestorsAux : Nat → Option DemoClass → List DemoClass
  | 0, _ => []
  | _ + 1, none => []
  | fuel + 1, some c => c :: ancestorsAux fuel (parentOf c)

/-- A class together with all its transitive superclasses. -/
def ancestors (c : DemoClass) : List DemoClass := ancestorsAux 4 (some c)

/-- `c` transitively specializes `base` (reflexively). -/
def specializes (c base : DemoClass) : Bool := (ancestors c).contains base

/-- Modelled from the spec (§9): a registry entry is discovered as a concrete
model iff it "has at least one own field or endpoint".  `Post` and `Todo`
declare endpoints and fields; `ScrapeableApiModel` and
`JSONPlaceholderAPIScraper` declare none. -/
def isConcrete : DemoClass → Bool
  | .Post => true
  | .Todo => true
  | _ => false

/-- The registry of declared classes (spec §9: "a model registers itself …
at declaration time"). -/
def registry : List DemoClass :=
  [.ScrapeableApiModel, .JSONPlaceholderAPIScraper, .Post, .Todo]

/-- Modelled from the spec: discovery is a lookup over the registry filtered
to concrete models that (transitively) specialize the base (§4.1, §9). -/
def discover (base : DemoClass) : List DemoClass :=
  registry.filter (fun c => specializes c base && isConcrete c)

end Scrape

namespace Scrape

/-! ## Supporting lemmas -/

theorem request_offline (net : String → HttpOutcome β) (st : GwState β) (rid url : String) :
    request true net st rid url = (.knownAbsent, st) := rfl

theorem resolveStatus_terminal (o : GetterOutcome α) :
    (resolveStatus o).1.isTerminal = true := by
  cases o <;> rfl

theorem scrapeField_terminal (offline : Bool) (net : String → HttpOutcome β)
    (M : ModelDesc β ρ α) (d : ρ) (gw : GwState β) (f : String × FieldStatus × Option α) :
    (scrapeField offline net M d gw f).1.2.1.isTerminal = true := by
  unfold scrapeField
  by_cases h : f.2.1.isTerminal
  · simp [h]
  · simp only [h, Bool.false_eq_true, if_neg, if_false]
    cases (M.fieldsOf d).lookup f.1 with
    | none => rfl
    | some g => simpa using resolveStatus_terminal (runGetter offline net gw g).1

theorem scrapeField_offline_gw (net : String → HttpOutcome β) (M : ModelDesc β ρ α)
    (d : ρ) (gw : GwState β) (f : String × FieldStatus × Option α) :
    (scrapeField true net M d gw f).2 = gw := by
  unfold scrapeField
  by_cases h : f.2.1.isTerminal
  · simp [h]
  · simp only [h, Bool.false_eq_true, if_neg, if_false]
    cases (M.fieldsOf d).lookup f.1 with
    | none => rfl
    | some g => cases g <;> rfl

theorem foldl_scrapeStep_all_terminal (offline : Bool) (net : String → HttpOutcome β)
    (M : ModelDesc β ρ α) (d : ρ) :
    ∀ (fs : List (String × FieldStatus × Option α))
      (acc : List (String × FieldStatus × Option α) × GwState β),
      acc.1.all (fun f => f.2.1.isTerminal) = true →
      ((fs.foldl (scrapeStep offline net M d) acc).1).all (fun f => f.2.1.isTerminal) = true := by
  intro fs
  induction fs with
  | nil => intro acc h; exact h
  | cons f fs ih =>
    intro acc h
    apply ih
    simp only [scrapeStep, List.all_append, h, Bool.true_and, List.all_cons, List.all_nil,
      Bool.and_true]
    exact scrapeField_terminal offline net M d acc.2 f

theorem scrapeRecord_allTerminal (offline : Bool) (net : String → HttpOutcome β)
    (M : ModelDesc β ρ α) (gw : GwState β) (r : SRecord ρ α) :
    (scrapeRecord offline net M gw r).1.allTerminal = true := by
  unfold scrapeRecord SRecord.allTerminal
  exact foldl_scrapeStep_all_terminal offline net M r.data r.fields ([], gw) rfl

theorem foldl_scrapeStep_offline_gw (net : String → HttpOutcome β)
    (M : ModelDesc β ρ α) (d : ρ) :
    ∀ (fs : List (String × FieldStatus × Option α))
      (acc : List (String × FieldStatus × Option α) × GwState β),
      (fs.foldl (scrapeStep true net M d) acc).2 = acc.2 := by
  intro fs
  induction fs with
  | nil => intro acc; rfl
  | cons f fs ih =>
    intro acc
    rw [List.foldl_cons, ih]
    simp [scrapeStep, scrapeField_offline_gw]

theorem scrapeRecord_offline_gw (net : String → HttpOutcome β) (M : ModelDesc β ρ α)
    (gw : GwState β) (r : SRecord ρ α) :
    (scrapeRecord true net M gw r).2 = gw := by
  unfold scrapeRecord
  exact foldl_scrapeStep_offline_gw net M r.data r.fields ([], gw)

theorem foldl_scrapeRecordsStep_offline_gw (net : String → HttpOutcome β)
    (M : ModelDesc β ρ α) :
    ∀ (rs : List (SRecord ρ α)) (acc : List (SRecord ρ α) × GwState β),
      (rs.foldl (scrapeRecordsStep true net M) acc).2 = acc.2 := by
  intro rs
  induction rs with
  | nil => intro acc; rfl
  | cons r rs ih =>
    intro acc
    rw [List.foldl_cons, ih]
    simp [scrapeRecordsStep, scrapeRecord_offline_gw]

theorem scrapeRecords_offline_gw (net : String → HttpOutcome β) (M : ModelDesc β ρ α)
    (gw : GwState β) (rs : List (SRecord ρ α)) :
    (scrapeRecords true net M gw rs).2 = gw := by
  unfold scrapeRecords
  exact foldl_scrapeRecordsStep_offline_gw net M rs ([], gw)

theorem foldl_scrapeRecordsStep_all_terminal (offline : Bool) (net : String → HttpOutcome β)
    (M : ModelDesc β ρ α) :
    ∀ (rs : List (SRecord ρ α)) (acc : List (SRecord ρ α) × GwState β),
      acc.1.all (fun r => r.allTerminal) = true →
      ((rs.foldl (scrapeRecordsStep offline net M) acc).1).all (fun r => r.allTerminal) = true := by
  intro rs
  induction rs with
  | nil => intro acc h; exact h
  | cons r rs ih =>
    intro acc h
    apply ih
    simp only [scrapeRecordsStep, List.all_append, h, Bool.true_and, List.all_cons, List.all_nil,
      Bool.and_true]
    exact scrapeRecord_allTerminal offline net M acc.2 r

theorem scrapeRecords_all_terminal (offline : Bool) (net : String → HttpOutcome β)
    (M : ModelDesc β ρ α) (gw : GwState β) (rs : List (SRecord ρ α)) :
    ((scrapeRecords offline net M gw rs).1).all (fun r => r.allTerminal) = true := by
  unfold scrapeRecords
  exact foldl_scrapeRecordsStep_all_terminal offline net M rs ([], gw) rfl

end Scrape

namespace Scrape

/-- The de-duplication invariant of the Gateway state: the issued log has no
duplicate ids and every issued id is memoized in the coalescing map. -/
def GwInv (st : GwState β) : Prop :=
  st.issued.Nodup ∧ ∀ i ∈ st.issued, (st.memo.lookup i).isSome

theorem GwInv_init : GwInv (GwState.init : GwState β) := by
  constructor
  · exact List.nodup_nil
  · intro i hi
    simp [GwState.init] at hi

theorem request_preserves_inv (offline : Bool) (net : String → HttpOutcome β)
    (st : GwState β) (rid url : String) (h : GwInv st) :
    GwInv (request offline net st rid url).2 := by
  unfold request
  by_cases hoff : offline
  · simpa [hoff] using h
  · simp only [hoff, Bool.false_eq_true, if_false]
    cases hm : st.memo.lookup rid with
    | some r => exact h
    | none =>
      simp only
      constructor
      · have hnotin : rid ∉ st.issued := by
          intro hin
          have := h.2 rid hin
          rw [hm] at this
          simp at this
        simp [List.nodup_append, h.1, hnotin]
      · intro i hi
        simp only [List.mem_append, List.mem_singleton] at hi
        by_cases hieq : i = rid
        · subst hieq
          simp [List.lookup]
        · cases hi with
          | inl hin =>
            have hbeq : (i == rid) = false := beq_eq_false_iff_ne.mpr hieq
            simpa [List.lookup, hbeq] using h.2 i hin
          | inr hr => exact absurd hr hieq

theorem runCalls_preserves_inv (offline : Bool) (net : String → HttpOutcome β) :
    ∀ (calls : List (String × String)) (st : GwState β), GwInv st →
      GwInv (runCalls offline net st calls) := by
  intro calls
  induction calls with
  | nil => intro st h; exact h
  | cons c cs ih =>
    intro st h
    exact ih _ (request_preserves_inv offline net st c.1 c.2 h)

end Scrape

namespace Scrape

theorem persistRecords_offline (name : String) (cache : CacheStore (SRecord ρ α))
    (rs : List (SRecord ρ α)) : persistRecords true name cache rs = ([], cache) := rfl

theorem persistRecords_foldl_writes (name : String) :
    ∀ (rs : List (SRecord ρ α))
      (acc : List (String × String × SRecord ρ α) × CacheStore (SRecord ρ α)),
      (rs.foldl
        (fun (acc : List (String × String × SRecord ρ α) × CacheStore (SRecord ρ α)) r =>
          (acc.1 ++ [(name, r.key, r)], acc.2.write name r.key r)) acc).1
        = acc.1 ++ rs.map (fun r => (name, r.key, r)) := by
  intro rs
  induction rs with
  | nil => intro acc; simp
  | cons r rs ih =>
    intro acc
    rw [List.foldl_cons, ih]
    simp

theorem persistRecords_writes (name : String) (cache : CacheStore (SRecord ρ α))
    (rs : List (SRecord ρ α)) :
    (persistRecords false name cache rs).1 = rs.map (fun r => (name, r.key, r)) := by
  unfold persistRecords
  simpa using persistRecords_foldl_writes name rs ([], cache)

theorem runModel_offline (opts : RunOptions) (M : ModelDesc β ρ α)
    (valid : SRecord ρ α → Bool) (net : String → HttpOutcome β)
    (cache : CacheStore (SRecord ρ α)) (gw : GwState β) (h : opts.check_api = false) :
    (runModel opts M valid net cache gw).writes = [] ∧
    (runModel opts M valid net cache gw).cache = cache ∧
    (runModel opts M valid net cache gw).gw = gw := by
  unfold runModel
  rw [h]
  simp only [Bool.not_false]
  by_cases hc : (opts.use_cache && !(CacheStore.loadAll cache valid M.name).isEmpty) = true
  · simp [hc, persistRecords_offline, scrapeRecords_offline_gw]
  · simp only [hc, if_false, if_true]
    by_cases hu : opts.use_cache = true <;> simp [hu]

/-- Every record a (non-offline) run writes comes out of ScrapeFields. -/
theorem runModel_writes_mem (opts : RunOptions) (M : ModelDesc β ρ α)
    (valid : SRecord ρ α → Bool) (net : String → HttpOutcome β)
    (cache : CacheStore (SRecord ρ α)) (gw : GwState β)
    (w : String × String × SRecord ρ α)
    (hw : w ∈ (runModel opts M valid net cache gw).writes) :
    w.2.2.allTerminal = true := by
  by_cases h : opts.check_api = false
  · rw [(runModel_offline opts M valid net cache gw h).1] at hw
    simp at hw
  · have hck : opts.check_api = true := by
      cases hcc : opts.check_api
      · exact absurd hcc h
      · rfl
    unfold runModel at hw
    rw [hck] at hw
    simp only [Bool.not_true] at hw
    by_cases hc : (opts.use_cache && !(CacheStore.loadAll cache valid M.name).isEmpty) = true
    · rw [if_pos hc] at hw
      simp only [persistRecords_writes, List.mem_map] at hw
      obtain ⟨r, hr, hwr⟩ := hw
      have hall := scrapeRecords_all_terminal false net M gw (CacheStore.loadAll cache valid M.name)
      rw [List.all_eq_true] at hall
      have := hall r hr
      rw [← hwr]
      simpa using this
    · rw [if_neg hc] at hw
      simp only [Bool.false_eq_true, if_false] at hw
      cases hres : (request false net gw (M.name ++ "-list") M.listEndpoint).1 with
      | success b =>
        rw [hres] at hw
        simp only [persistRecords_writes, List.mem_map] at hw
        obtain ⟨r, hr, hwr⟩ := hw
        have hall := scrapeRecords_all_terminal false net M
          (request false net gw (M.name ++ "-list") M.listEndpoint).2
          ((M.parseList b).map M.freshRecord)
        rw [List.all_eq_true] at hall
        have := hall r hr
        rw [← hwr]
        simpa using this
      | knownAbsent =>
        rw [hres] at hw
        simp at hw
      | transientError =>
        rw [hres] at hw
        simp at hw

end Scrape

namespace Scrape

/-- The Cache read entry point (spec §6): `load_all_cached(model)` is purely a
pass-through to the Cache Store's bulk load. -/
def load_all_cached (cs : CacheStore R) (valid : R → Bool) (m : String) : List R :=
  cs.loadAll valid m

/-- The record `{id:1, userId:1, title:"t", body:"b"}` of the spec's §8
Post scenario. -/
def post1 : Post := ⟨1, 1, "t", "b"⟩

/-- Validation that accepts every record (schema drift plays no role in the
scenarios under verification). -/
def validAll : SRecord ρ α → Bool := fun _ => true

/-- Demo network behaviour for the §8 Post scenario: the list endpoint returns
the single post row, and every other URL — in particular the comments detail
endpoint for post 1 — returns a 404 not-found-class response. -/
def net404 : String → HttpOutcome DemoBody := fun url =>
  if url == "/posts" then .ok (.posts [post1]) else .notFound

/-- The §8 Post scenario run: fresh cache, fresh Gateway state, cache reads
and API checks both enabled. -/
def c2run : RunResult DemoBody Post Int :=
  runModel ⟨true, true⟩ PostModel validAll net404 [] GwState.init

/-- The fully scraped record the §8 Post scenario persists. -/
def post1Scraped : SRecord Post Int :=
  ⟨"1", post1, [("comments_count", .KnownEmpty, some 0)]⟩

end Scrape

namespace Scrape

/-- C1: For every run invoked with `check_api=false` (the demo's `--offline`
flag), no network call is ever issued (the run's Gateway state, including its
issued-request log, is untouched and the Request Gateway always returns
KnownAbsent) and the Cache Store is never mutated (no write occurs at any
point of the run). -/
theorem claim_c1_offline_run (opts : RunOptions) (M : ModelDesc β ρ α)
    (valid : SRecord ρ α → Bool) (net : String → HttpOutcome β)
    (cache : CacheStore (SRecord ρ α)) (gw : GwState β)
    (h : opts.check_api = false) :
    (runModel opts M valid net cache gw).writes = [] ∧
    (runModel opts M valid net cache gw).cache = cache ∧
    (runModel opts M valid net cache gw).gw = gw ∧
    (∀ (st : GwState β) (rid url : String), request true net st rid url = (.knownAbsent, st)) := by
  obtain ⟨h1, h2, h3⟩ := runModel_offline opts M valid net cache gw h
  exact ⟨h1, h2, h3, fun st rid url => rfl⟩

/-- Witness for C1: the offline run of the `Post` model on a fresh cache. -/
theorem claim_c1_offline_run_witness :
    (runModel ⟨true, false⟩ PostModel validAll net404 [] GwState.init).writes = [] ∧
    (runModel ⟨true, false⟩ PostModel validAll net404 [] GwState.init).cache = [] ∧
    (runModel ⟨true, false⟩ PostModel validAll net404 [] GwState.init).gw = GwState.init ∧
    (∀ (st : GwState DemoBody) (rid url : String),
      request true net404 st rid url = (.knownAbsent, st)) :=
  claim_c1_offline_run ⟨true, false⟩ PostModel validAll net404 [] GwState.init rfl

/-- C2: a Detail getter that receives a KnownAbsent Gateway result resolves to
status KnownEmpty with the field's declared default-on-absence value, never
Failed; in particular the §8 Post scenario (post id 1, comments endpoint
404s) persists the cache entry for `(Post, "1")` with `comments_count = 0`
and status KnownEmpty. -/
theorem claim_c2_knownAbsent_knownEmpty :
    (∀ (α β : Type) (offline : Bool) (net : String → HttpOutcome β) (st : GwState β)
      (rid url : String) (dflt : α) (onS : β → GetterOutcome α),
      (request offline net st rid url).1 = .knownAbsent →
      resolveStatus (runDetailGetter offline net st rid url dflt onS).1 =
        (.KnownEmpty, some dflt)) ∧
    c2run.writes = [("Post", "1", post1Scraped)] ∧
    load_all_cached c2run.cache validAll "Post" = [post1Scraped] := by
  refine ⟨?_, by decide, by decide⟩
  intro α β offline net st rid url dflt onS h
  unfold runDetailGetter
  cases hr : request offline net st rid url with
  | mk r st2 =>
    rw [hr] at h
    simp only at h
    subst h
    rfl

/-- Witness for C2: the concrete KnownAbsent resolution of the Post 1
comments detail fetch. -/
theorem claim_c2_knownAbsent_knownEmpty_witness :
    resolveStatus (runDetailGetter false (fun _ => (.notFound : HttpOutcome DemoBody))
      GwState.init "post-1-comments" (buildUrl "/posts/1/comments") (0 : Int)
      (fun _ => .error)).1 = (.KnownEmpty, some 0) :=
  claim_c2_knownAbsent_knownEmpty.1 Int DemoBody false (fun _ => .notFound) GwState.init
    "post-1-comments" (buildUrl "/posts/1/comments") 0 (fun _ => .error) (by decide)

/-- C3: every record written to the Cache Store during a run has every
scrapeable field in a terminal status; no record is persisted with a field
Unfetched or Pending. -/
theorem claim_c3_persist_only_terminal (opts : RunOptions) (M : ModelDesc β ρ α)
    (valid : SRecord ρ α → Bool) (net : String → HttpOutcome β)
    (cache : CacheStore (SRecord ρ α)) (gw : GwState β)
    (w : String × String × SRecord ρ α)
    (hw : w ∈ (runModel opts M valid net cache gw).writes) :
    w.2.2.allTerminal = true ∧
    ∀ f ∈ w.2.2.fields, f.2.1 ≠ FieldStatus.Unfetched ∧ f.2.1 ≠ FieldStatus.Pending := by
  have h := runModel_writes_mem opts M valid net cache gw w hw
  refine ⟨h, ?_⟩
  intro f hf
  rw [SRecord.allTerminal, List.all_eq_true] at h
  have hterm := h f hf
  obtain ⟨n, s, v⟩ := f
  cases s <;> simp_all [FieldStatus.isTerminal]

/-- Witness for C3: the record persisted by the §8 Post scenario run. -/
theorem claim_c3_persist_only_terminal_witness :
    post1Scraped.allTerminal = true ∧
    ∀ f ∈ post1Scraped.fields,
      f.2.1 ≠ FieldStatus.Unfetched ∧ f.2.1 ≠ FieldStatus.Pending :=
  claim_c3_persist_only_terminal ⟨true, true⟩ PostModel validAll net404 [] GwState.init
    ("Post", "1", post1Scraped) (by decide)

/-- C4: read-after-write consistency of the Cache Store: after a successful
`write(M, K, r)` of a record that validates, `exists(M, K)` is true and
`load_all(M)` contains `r`. -/
theorem claim_c4_read_after_write (R : Type) (cs : CacheStore R) (valid : R → Bool)
    (m k : String) (r : R) (hv : valid r = true) :
    (cs.write m k r).existsEntry m k = true ∧
    r ∈ (cs.write m k r).loadAll valid m := by
  constructor
  · simp [CacheStore.write, CacheStore.existsEntry]
  · simp [CacheStore.write, CacheStore.loadAll, List.filter_cons, hv]

/-- Witness for C4: writing record 7 under ("Post", "1") into the empty store. -/
theorem claim_c4_read_after_write_witness :
    CacheStore.existsEntry (CacheStore.write ([] : CacheStore Nat) "Post" "1" 7) "Post" "1"
      = true ∧
    7 ∈ CacheStore.loadAll (CacheStore.write ([] : CacheStore Nat) "Post" "1" 7)
      (fun _ => true) "Post" :=
  claim_c4_read_after_write Nat [] (fun _ => true) "Post" "1" 7 rfl

/-- C5: within one run (started from the reset Gateway state), at most one
underlying request is ever issued per de-duplication id, whatever the call
sequence; and a repeated online call with the same id returns the coalesced
(memoized) result of the first. -/
theorem claim_c5_request_dedup (offline : Bool) (net : String → HttpOutcome β)
    (calls : List (String × String)) (rid : String) :
    ((runCalls offline net GwState.init calls).issued).count rid ≤ 1 ∧
    ∀ (st : GwState β) (url url2 : String),
      (request false net (request false net st rid url).2 rid url2).1
        = (request false net st rid url).1 := by
  constructor
  · have hinv := runCalls_preserves_inv offline net calls GwState.init GwInv_init
    exact List.nodup_iff_count_le_one.mp hinv.1 rid
  · intro st url url2
    unfold request
    simp only [Bool.false_eq_true, if_false]
    cases hm : st.memo.lookup rid with
    | some r => simp [hm]
    | none => simp [hm, List.lookup]

/-- C6: discovery from a base finds the base when it is concrete, finds every
concrete model transitively specializing the base — including `Post` and
`Todo`, which are reached only through the intermediate non-leaf
`JSONPlaceholderAPIScraper` — and never duplicates a model. -/
theorem claim_c6_discovery :
    (∀ base : DemoClass, isConcrete base = true → base ∈ discover base) ∧
    (∀ base c : DemoClass, isConcrete c = true → specializes c base = true →
      c ∈ discover base) ∧
    (∀ base : DemoClass, (discover base).Nodup) ∧
    DemoClass.Post ∈ discover .JSONPlaceholderAPIScraper ∧
    DemoClass.Todo ∈ discover .JSONPlaceholderAPIScraper := by
  decide

/-- Witness for C6: `Post` and `Todo` are both discovered from
`JSONPlaceholderAPIScraper`. -/
theorem claim_c6_discovery_witness :
    DemoClass.Post ∈ discover .JSONPlaceholderAPIScraper ∧
    DemoClass.Todo ∈ discover .JSONPlaceholderAPIScraper :=
  ⟨claim_c6_discovery.2.1 .JSONPlaceholderAPIScraper .Post (by decide) (by decide),
   claim_c6_discovery.2.1 .JSONPlaceholderAPIScraper .Todo (by decide) (by decide)⟩

/-- The `{id:5, title:"abc"}` Todo record of the spec's §8 Todo scenario. -/
def todo5 : Todo := ⟨5, 1, "abc", false⟩

/-- C7: resolving `title_length` on a Todo record yields Resolved with the
length of its title, leaves the Gateway state untouched (no network call),
for every value of `check_api`; a title `"abc"` computes 3. -/
theorem claim_c7_title_length (t : Todo) (checkApi : Bool)
    (net : String → HttpOutcome DemoBody) (gw : GwState DemoBody) :
    scrapeField (!checkApi) net TodoModel t gw ("title_length", .Unfetched, none)
      = (("title_length", .Resolved, some (t.title.length : Int)), gw) ∧
    (t.title = "abc" → t.compute_title_length = .value 3) := by
  constructor
  · rfl
  · intro h
    unfold Todo.compute_title_length
    rw [h]
    decide

/-- Witness for C7: the §8 Todo scenario record resolves `title_length` to 3
with the Gateway untouched. -/
theorem claim_c7_title_length_witness :
    scrapeField (!true) (fun _ => (.notFound : HttpOutcome DemoBody)) TodoModel todo5
        GwState.init ("title_length", .Unfetched, none)
      = (("title_length", .Resolved, some (3 : Int)), GwState.init) ∧
    todo5.compute_title_length = .value 3 :=
  ⟨(claim_c7_title_length todo5 true (fun _ => .notFound) GwState.init).1,
   (claim_c7_title_length todo5 true (fun _ => .notFound) GwState.init).2 rfl⟩

/-- Network behaviour where the comments endpoint answers with an empty list. -/
def netEmptyComments : String → HttpOutcome DemoBody := fun url =>
  if url == "/posts" then .ok (.posts [post1]) else .ok (.comments [])

/-- C8: for a Post record, a not-found comments response (KnownAbsent) and a
successful empty comment list resolve `comments_count` to the same value 0,
both terminal. -/
theorem claim_c8_absent_eq_empty (p : Post) (netA netB : String → HttpOutcome DemoBody)
    (stA stB : GwState DemoBody) (hA : stA.memo = []) (hB : stB.memo = [])
    (hnA : netA (buildUrl ("/posts/" ++ pyStrInt p.id ++ "/comments")) = .notFound)
    (hnB : netB (buildUrl ("/posts/" ++ pyStrInt p.id ++ "/comments")) = .ok (.comments [])) :
    (resolveStatus (runGetter false netA stA p.fetch_comments_count).1).2 = some 0 ∧
    (resolveStatus (runGetter false netB stB p.fetch_comments_count).1).2 = some 0 ∧
    (resolveStatus (runGetter false netA stA p.fetch_comments_count).1).2
      = (resolveStatus (runGetter false netB stB p.fetch_comments_count).1).2 ∧
    (resolveStatus (runGetter false netA stA p.fetch_comments_count).1).1.isTerminal = true ∧
    (resolveStatus (runGetter false netB stB p.fetch_comments_count).1).1.isTerminal = true := by
  have hAres : (runGetter false netA stA p.fetch_comments_count).1 = .empty 0 := by
    unfold Post.fetch_comments_count runGetter runDetailGetter request
    simp [hA, hnA, classify, List.lookup]
  have hBres : (runGetter false netB stB p.fetch_comments_count).1 = .value 0 := by
    unfold Post.fetch_comments_count runGetter runDetailGetter request
    simp [hB, hnB, classify, List.lookup]
  rw [hAres, hBres]
  exact ⟨rfl, rfl, rfl, rfl, rfl⟩

/-- Witness for C8: post 1 against the 404 network and against the
empty-list network. -/
theorem claim_c8_absent_eq_empty_witness :
    (resolveStatus (runGetter false net404 GwState.init post1.fetch_comments_count).1).2
      = some 0 ∧
    (resolveStatus (runGetter false netEmptyComments GwState.init
        post1.fetch_comments_count).1).2 = some 0 ∧
    (resolveStatus (runGetter false net404 GwState.init post1.fetch_comments_count).1).2
      = (resolveStatus (runGetter false netEmptyComments GwState.init
          post1.fetch_comments_count).1).2 ∧
    (resolveStatus (runGetter false net404 GwState.init
        post1.fetch_comments_count).1).1.isTerminal = true ∧
    (resolveStatus (runGetter false netEmptyComments GwState.init
        post1.fetch_comments_count).1).1.isTerminal = true :=
  claim_c8_absent_eq_empty post1 net404 netEmptyComments GwState.init GwState.init
    rfl rfl (by decide) (by decide)

/-- C9: a run with `use_cache=false` and `check_api=false` completes without
error with an empty record set, issues zero fetch attempts (Gateway state
untouched), performs no write, and — starting from an empty Cache Store —
leaves `load_all_cached` empty for the model. -/
theorem claim_c9_offline_nocache (M : ModelDesc β ρ α) (valid : SRecord ρ α → Bool)
    (net : String → HttpOutcome β) (gw : GwState β) (cache : CacheStore (SRecord ρ α))
    (hcache : cache = []) :
    (runModel ⟨false, false⟩ M valid net cache gw).records = .ok [] ∧
    (runModel ⟨false, false⟩ M valid net cache gw).writes = [] ∧
    (runModel ⟨false, false⟩ M valid net cache gw).gw = gw ∧
    load_all_cached (runModel ⟨false, false⟩ M valid net cache gw).cache valid M.name = [] := by
  subst hcache
  unfold runModel
  simp [CacheStore.loadAll, load_all_cached]

/-- Witness for C9: the Todo model, offline and cache-less. -/
theorem claim_c9_offline_nocache_witness :
    (runModel ⟨false, false⟩ TodoModel validAll (fun _ => .notFound) [] GwState.init).records
      = .ok [] ∧
    (runModel ⟨false, false⟩ TodoModel validAll (fun _ => .notFound) [] GwState.init).writes
      = [] ∧
    (runModel ⟨false, false⟩ TodoModel validAll (fun _ => .notFound) [] GwState.init).gw
      = GwState.init ∧
    load_all_cached (runModel ⟨false, false⟩ TodoModel validAll (fun _ => .notFound)
        [] GwState.init).cache validAll "Todo" = [] :=
  claim_c9_offline_nocache TodoModel validAll (fun _ => .notFound) GwState.init [] rfl

/-- A second Todo record, with an id distinct from `todo5`. -/
def todo7 : Todo := ⟨7, 2, "xyz", true⟩

/-- C10: `Todo.cache_key` is exactly the decimal string rendering of `id`, a
deterministic function of `id` alone, and injective: distinct ids give
distinct cache keys. -/
theorem claim_c10_cache_key :
    (∀ t : Todo, t.cache_key = pyStrInt t.id) ∧
    (∀ t₁ t₂ : Todo, t₁.id = t₂.id → t₁.cache_key = t₂.cache_key) ∧
    (∀ t₁ t₂ : Todo, t₁.id ≠ t₂.id → t₁.cache_key ≠ t₂.cache_key) := by
  refine ⟨fun t => rfl, ?_, ?_⟩
  · intro t₁ t₂ h
    unfold Todo.cache_key
    rw [h]
  · intro t₁ t₂ hne heq
    exact hne (pyStrInt_inj _ _ heq)

/-- Witness for C10: todos with ids 5 and 7 have distinct cache keys. -/
theorem claim_c10_cache_key_witness :
    todo5.id ≠ todo7.id ∧ todo5.cache_key ≠ todo7.cache_key :=
  ⟨by decide, claim_c10_cache_key.2.2 todo5 todo7 (by decide)⟩

end Scrape
